import Mathlib

/-!
Verification development for the scalpel edge node.

The development shallowly embeds the two subsystems of the repository:

* the cache engine (src/cache/mod.rs, src/cache/rocks.rs): the RocksDB-backed
  image cache with its bincode on-disk entry format, point reads and writes,
  live-file size accounting, the pop eviction primitive and the shrink loop;
* the server lifecycle manager (src/http/mod.rs): the Actix/OpenSSL listener
  with its forceful-stop-then-respawn credential rotation.

Bytes are modelled as natural numbers below 256, byte strings as lists of
naturals.  Machine integers (u64, u128, usize) are naturals together with
explicit reduction modulo 2 ^ 64 or 2 ^ 128 where the Rust code can wrap; in
release builds Rust integer arithmetic wraps, which is the semantics modelled
here.  External collaborators (the md5 crate, OpenSSL, the OS socket layer,
RocksDB internals such as live-file bookkeeping and flush success) enter the
model as explicit parameters or state fields, never as hidden assumptions.
-/

namespace Scalpel

/-- A byte string: the model of Rust byte slices and vectors. -/
abbrev Bytes := List Nat

/-- Storage keys of the key-value engine (16-byte md5 digests in practice). -/
abbrev Key := List Nat

/-- An abstract 16-byte digest function standing for the external md5 crate.
The repository only relies on the digest being a deterministic pure function
of its input, so every definition takes the digest as a parameter. -/
abbrev DigestFn := Bytes → Bytes

/- ---------------------------------------------------------------------------
Bincode fixed-int little-endian primitives.

bincode::serialize with the default configuration writes integers fixed-width
little-endian: a u128 becomes 16 bytes, the length prefix of a borrowed byte
slice is a u64 written as 8 bytes followed by the raw bytes, and a fixed-size
byte array is written raw with no length prefix.
--------------------------------------------------------------------------- -/

/-- Little-endian encoding of a natural into exactly k bytes (low byte first),
truncating above 256 ^ k exactly as the fixed-width writer does. -/
def leBytes : Nat → Nat → List Nat
  | 0, _ => []
  | k + 1, n => n % 256 :: leBytes k (n / 256)

/-- Little-endian decoding of a byte list back into a natural. -/
def leNum : List Nat → Nat
  | [] => 0
  | b :: rest => b + 256 * leNum rest

/-- The on-disk cache entry of the rocks backend (rocks.rs, struct ImageEntry):
milliseconds-since-epoch put time (u128), a 16-byte checksum, and the raw
payload bytes.  The rocks entry carries no mime type field. -/
structure RImageEntry where
  put_time : Nat
  checksum : Bytes
  bytes : Bytes
deriving DecidableEq

/-- Bincode serialization of an RImageEntry: 16 little-endian bytes of
put_time, the 16 raw checksum bytes, an 8-byte little-endian length prefix of
the payload, then the raw payload. -/
def serEntry (e : RImageEntry) : Bytes :=
  leBytes 16 e.put_time ++ e.checksum ++ leBytes 8 e.bytes.length ++ e.bytes

/-- Bincode deserialization of an RImageEntry.  Fails (as bincode does) when
the input is too short for the next field; trailing bytes are ignored, as
bincode::deserialize does not demand full consumption of the slice. -/
def deserEntry (bs : Bytes) : Option RImageEntry :=
  if 16 ≤ bs.length then
    let pt := leNum (bs.take 16)
    let r1 := bs.drop 16
    if 16 ≤ r1.length then
      let ck := r1.take 16
      let r2 := r1.drop 16
      if 8 ≤ r2.length then
        let len := leNum (r2.take 8)
        let r3 := r2.drop 8
        if len ≤ r3.length then some ⟨pt, ck, r3.take len⟩ else none
      else none
    else none
  else none

/- ---------------------------------------------------------------------------
RocksDB model.

The database is modelled by its two column families (the images CF created at
open time and the engine default CF), each an association list from keys to
byte-string values, together with the outcomes of the engine-internal
operations the source consults: the live-file size metadata behind
size_on_disk (None models a failing live_files call), and fault flags for the
point get, the point put, the delete and the flush, modelling the error
results those RocksDB calls can return.  The iterator over a column family in
IteratorMode::Start yields entries in ascending byte-lexicographic key order,
so its first item is the entry with the least key.
--------------------------------------------------------------------------- -/

/-- CacheError of rocks.rs: a RocksDB engine error or a bincode error. -/
inductive CacheError where
  | rocks
  | bincode
deriving DecidableEq

/-- The modelled state of the RocksDB handle owned by RocksCache. -/
structure RocksDB where
  imagesCF : List (Key × Bytes)
  defaultCF : List (Key × Bytes)
  liveFiles : Option (List Nat)
  getFails : Bool
  putFails : Bool
  deleteFails : Bool
  flushOk : Bool
deriving DecidableEq

/-- Point lookup in a column family. -/
def getCF (cf : List (Key × Bytes)) (k : Key) : Option Bytes :=
  (cf.find? (fun kv => kv.1 == k)).map (·.2)

/-- Point write in a column family: last write wins, no read before write. -/
def putCF (cf : List (Key × Bytes)) (k : Key) (v : Bytes) : List (Key × Bytes) :=
  match cf with
  | [] => [(k, v)]
  | kv0 :: rest => if kv0.1 == k then (k, v) :: rest else kv0 :: putCF rest k v

/-- Point delete in a column family. -/
def eraseKey (cf : List (Key × Bytes)) (k : Key) : List (Key × Bytes) :=
  cf.filter (fun kv => !(kv.1 == k))

/-- Strict byte-lexicographic order on keys, the RocksDB default comparator. -/
def keyLtB : Key → Key → Bool
  | [], [] => false
  | [], _ :: _ => true
  | _ :: _, [] => false
  | a :: as, b :: bs => if a < b then true else if b < a then false else keyLtB as bs

/-- First item of a forward iterator opened in IteratorMode::Start: the entry
of the column family with the least key in ascending byte order. -/
def iterFirst (cf : List (Key × Bytes)) : Option (Key × Bytes) :=
  cf.foldl
    (fun best kv =>
      match best with
      | none => some kv
      | some b => if keyLtB kv.1 b.1 then some kv else some b)
    none

/-- RocksCache::get_cache_key — md5 over the saver flag byte, the chapter
hash bytes and the image name bytes, in that order.  Strings are modelled by
their byte sequences and md5 by the digest parameter. -/
def get_cache_key (digest : DigestFn) (chap image : Bytes) (saver : Bool) : Key :=
  digest ((if saver then 1 else 0) :: (chap ++ image))

/-- RocksCache::save_to_db — build an ImageEntry from the payload (put time
taken from the clock parameter now, checksum the digest of the payload),
bincode-serialize it and issue a single point write to the images CF. -/
def save_to_db (digest : DigestFn) (now : Nat) (db : RocksDB)
    (chap image : Bytes) (saver : Bool) (data : Bytes) :
    Except CacheError RocksDB :=
  let key := get_cache_key digest chap image saver
  let entry := serEntry ⟨now, digest data, data⟩
  if db.putFails then .error .rocks
  else .ok { db with imagesCF := putCF db.imagesCF key entry }

/-- RocksCache::load_from_db — point lookup by the derived key in the images
CF; a hit is deserialized and returned as the payload bytes paired with the
save time (put_time cast u128 → u64, hence reduced modulo 2 ^ 64); a miss is
Ok none; engine and decode failures are distinct errors. -/
def load_from_db (digest : DigestFn) (db : RocksDB)
    (chap image : Bytes) (saver : Bool) :
    Except CacheError (Option (Bytes × Nat)) :=
  if db.getFails then .error .rocks
  else
    match getCF db.imagesCF (get_cache_key digest chap image saver) with
    | none => .ok none
    | some serialized =>
        match deserEntry serialized with
        | none => .error .bincode
        | some e => .ok (some (e.bytes, e.put_time % 2 ^ 64))

/-- ImageCache::load for RocksCache — load_from_db with every error absorbed
into none (the source logs the error and converts with ok / and_then). -/
def cacheLoad (digest : DigestFn) (db : RocksDB)
    (chap image : Bytes) (saver : Bool) : Option (Bytes × Nat) :=
  match load_from_db digest db chap image saver with
  | .error _ => none
  | .ok r => r

/-- ImageCache::save for RocksCache — save_to_db with errors absorbed into a
boolean, returning the written state on success. -/
def cacheSave (digest : DigestFn) (now : Nat) (db : RocksDB)
    (chap image : Bytes) (saver : Bool) (data : Bytes) :
    Bool × RocksDB :=
  match save_to_db digest now db chap image saver data with
  | .error _ => (false, db)
  | .ok db2 => (true, db2)

/-- RocksCache::size_on_disk — fold the sizes of the live files with u64
addition (wrapping in release builds, hence the modulus). -/
def size_on_disk (db : RocksDB) : Except CacheError Nat :=
  match db.liveFiles with
  | none => .error .rocks
  | some sizes => .ok (sizes.foldl (fun acc s => (acc + s) % 2 ^ 64) 0)

/-- ImageCache::report for RocksCache — size_on_disk with an error absorbed
into 0 (unwrap_or(0) after logging). -/
def report (db : RocksDB) : Nat :=
  match size_on_disk db with
  | .error _ => 0
  | .ok n => n

/-- RocksCache::pop — take the first entry of the forward iterator over the
images CF; when present, issue the delete of its key and return the length of
the stored value; when the CF is empty return Ok none.  The source calls
self.db.delete(key), the single-argument delete, which targets the DEFAULT
column family — not delete_cf on the images CF it iterated — and this model
reproduces that faithfully. -/
def pop (db : RocksDB) : Except CacheError (Option Nat × RocksDB) :=
  match iterFirst db.imagesCF with
  | none => .ok (none, db)
  | some kv =>
      if db.deleteFails then .error .rocks
      else .ok (some kv.2.length, { db with defaultCF := eraseKey db.defaultCF kv.1 })

/-- Wrapping u64 subtraction: the semantics of sz -= removed in a release
build, where overflow checks are off. -/
def u64sub (a b : Nat) : Nat := (a + 2 ^ 64 - b % 2 ^ 64) % 2 ^ 64

/-- The epilogue of RocksCache::shrink: flush all changes to disk; a flush
error turns the whole operation into Err, otherwise the incrementally
computed size is returned. -/
def flushFinish (sz : Nat) (db : RocksDB) : Except Unit (Nat × RocksDB) :=
  if db.flushOk then .ok (sz, db) else .error ()

/-- The while loop of RocksCache::shrink, fuel-indexed because the source
loop need not terminate (none = fuel exhausted before the loop exited).  The
second component of the result counts the calls made to pop.  While sz > min:
pop; on Ok(Some(removed)) subtract and continue; on Err abort with Err; on
Ok(None) break to the flush epilogue. -/
def shrinkGoC : Nat → Nat → Nat → RocksDB → Option (Except Unit (Nat × RocksDB) × Nat)
  | 0, _, _, _ => none
  | fuel + 1, sz, min, db =>
      if min < sz then
        match pop db with
        | .error _ => some (.error (), 1)
        | .ok (some removed, db2) =>
            (shrinkGoC fuel (u64sub sz removed) min db2).map (fun rc => (rc.1, rc.2 + 1))
        | .ok (none, db2) => some (flushFinish sz db2, 1)
      else some (flushFinish sz db, 0)

/-- ImageCache::shrink for RocksCache — measure the initial size once via
report, run the eviction loop, flush, and return the incrementally tracked
size. -/
def shrink (fuel : Nat) (db : RocksDB) (min : Nat) :
    Option (Except Unit (Nat × RocksDB)) :=
  (shrinkGoC fuel (report db) min db).map Prod.fst

/- ---------------------------------------------------------------------------
Spec-side description of shrink (for the refinement claim C2), following the
words of the specification: gather the byte counts reported by successive
pops while the running size still exceeds min, recording whether a pop
errored; then fail if one did, otherwise force the durability flush and
return the initial measurement with every reported byte count subtracted —
never re-measured from disk.
--------------------------------------------------------------------------- -/

/-- Modelled from the spec: the sequence of byte counts reported by the pops
of a shrink run, with the error flag and the final state (fuel-indexed like
the loop it describes). -/
def popTrace : Nat → Nat → Nat → RocksDB → Option (List Nat × Bool × RocksDB)
  | 0, _, _, _ => none
  | fuel + 1, sz, min, db =>
      if min < sz then
        match pop db with
        | .error _ => some ([], true, db)
        | .ok (some removed, db2) =>
            (popTrace fuel (u64sub sz removed) min db2).map
              (fun t => (removed :: t.1, t.2.1, t.2.2))
        | .ok (none, db2) => some ([], false, db2)
      else some ([], false, db)

/-- Modelled from the spec: shrink as the specification words it — one size
measurement, the pop sequence, failure exactly when a pop (or the final
flush) failed, and otherwise the initial measurement with each reported byte
count subtracted in turn. -/
def shrinkSpec (fuel : Nat) (db : RocksDB) (min : Nat) :
    Option (Except Unit (Nat × RocksDB)) :=
  (popTrace fuel (report db) min db).map
    (fun t =>
      if t.2.1 then .error ()
      else if t.2.2.flushOk then .ok (t.1.foldl u64sub (report db), t.2.2)
      else .error ())

/- ---------------------------------------------------------------------------
Server lifecycle model (src/http/mod.rs).

The Actix server is reduced to the credential its acceptor was built from and
whether it is currently bound and accepting; OpenSSL certificate parsing and
the OS bind are external, so the environment supplies the outcome of building
an acceptor from a credential (None models an ssl::Error) and whether the
fixed address can be bound.  respawn_with_new_cert additionally returns the
ordered trace of completed lifecycle events, mirroring the sequential awaits
of the source: the stop future is awaited to completion before the acceptor
is built and before any bind is attempted.
--------------------------------------------------------------------------- -/

/-- TLSPayload of the backend module: PEM certificate chain plus private key
text, consumed opaquely. -/
structure TLSPayload where
  certificate : String
  private_key : String
deriving DecidableEq

/-- The modelled Actix dev::Server: the credential of its TLS acceptor and
whether the listener is currently bound and accepting. -/
structure DevServer where
  cred : TLSPayload
  running : Bool
deriving DecidableEq

/-- The slice of GlobalState the lifecycle manager reads. -/
structure GlobalState where
  enforce_secure_tls : Bool
deriving DecidableEq

/-- HttpServerLifecycle: the global state handle and the owned server. -/
structure HttpServerLifecycle where
  gs : GlobalState
  actix : DevServer
deriving DecidableEq

/-- Error of http/mod.rs: an acceptor (credential) error or a port bind
error. -/
inductive HttpError where
  | acceptor
  | port
deriving DecidableEq

/-- Completed lifecycle events, in the order they finish. -/
inductive LEvent where
  | stopCompleted (graceful : Bool)
  | acceptorBuilt
  | bindAttempted
  | serverStarted
deriving DecidableEq

/-- The external world of the lifecycle manager: OpenSSL acceptor
construction from a credential (None models ssl::Error, the CredentialError
case) and whether the fixed bind address is available. -/
structure HttpEnv where
  buildAcceptor : TLSPayload → Bool → Option TLSPayload
  bindOk : Bool

/-- Server::stop(graceful).await — on completion the listener is released
either way; graceful only drains in-flight connections first, which the
model does not track. -/
def serverStop (s : DevServer) (_graceful : Bool) : DevServer :=
  { s with running := false }

/-- HttpServerLifecycle::shutdown — await the stop of the owned server,
returning the new state and the completed-stop event. -/
def lifecycleShutdown (st : HttpServerLifecycle) (graceful : Bool) :
    HttpServerLifecycle × LEvent :=
  ({ st with actix := serverStop st.actix graceful }, .stopCompleted graceful)

/-- spawn_http_server — bind the listener with the built acceptor; a bind
failure is the PortBindError case. -/
def spawn_http_server (env : HttpEnv) (acc : TLSPayload) : Except Unit DevServer :=
  if env.bindOk then .ok { cred := acc, running := true } else .error ()

/-- HttpServerLifecycle::respawn_with_new_cert — first await the forceful
stop of the running server, then build the acceptor from the new credential
(returning Error::Acceptor and keeping the stopped server if that fails),
then bind and start the fresh listener on the same address (returning
Error::Port and keeping the stopped server if the bind fails).  The third
component is the ordered event trace. -/
def respawn_with_new_cert (env : HttpEnv) (st : HttpServerLifecycle)
    (cert : TLSPayload) :
    HttpServerLifecycle × Except HttpError Unit × List LEvent :=
  let stopped := lifecycleShutdown st false
  match env.buildAcceptor cert st.gs.enforce_secure_tls with
  | none => (stopped.1, .error .acceptor, [stopped.2])
  | some acc =>
      match spawn_http_server env acc with
      | .error _ =>
          (stopped.1, .error .port, [stopped.2, .acceptorBuilt, .bindAttempted])
      | .ok srv =>
          ({ stopped.1 with actix := srv }, .ok (),
            [stopped.2, .acceptorBuilt, .bindAttempted, .serverStarted])

/- ---------------------------------------------------------------------------
Concrete states used to evaluate the code on failing inputs.
--------------------------------------------------------------------------- -/

/-- A concrete stand-in digest for witnesses: a constant 16-byte key. -/
def digest0 : DigestFn := fun _ => List.replicate 16 3

/-- An empty, fault-free database state. -/
def emptyDB : RocksDB :=
  { imagesCF := [], defaultCF := [], liveFiles := some [],
    getFails := false, putFails := false, deleteFails := false, flushOk := true }

/-- A state holding one image entry under key [5] and, under the same key, an
unrelated entry in the default CF, to expose which CF pop deletes from. -/
def exPopDB : RocksDB :=
  { imagesCF := [([5], List.replicate 40 7)], defaultCF := [([5], [1])],
    liveFiles := some [120],
    getFails := false, putFails := false, deleteFails := false, flushOk := true }

/-- A one-entry state whose live-file metadata reports 120 bytes while the
stored value is 40 bytes long. -/
def exShrinkDB : RocksDB :=
  { imagesCF := [([5], List.replicate 40 7)], defaultCF := [],
    liveFiles := some [120],
    getFails := false, putFails := false, deleteFails := false, flushOk := true }

/-- The state produced by saving payload [9, 9] at time 1000 into the empty
database under the digest0 key. -/
def exSaveDB : RocksDB :=
  { imagesCF := [(List.replicate 16 3, serEntry ⟨1000, List.replicate 16 3, [9, 9]⟩)],
    defaultCF := [], liveFiles := some [],
    getFails := false, putFails := false, deleteFails := false, flushOk := true }

/-- A state whose stored bytes under the digest0 key are empty, hence
undecodable (a corrupted entry). -/
def exCorruptDB : RocksDB :=
  { imagesCF := [(List.replicate 16 3, [])], defaultCF := [], liveFiles := some [],
    getFails := false, putFails := false, deleteFails := false, flushOk := true }

/-- A state whose live-file query fails. -/
def exBadSizeDB : RocksDB :=
  { imagesCF := [([3], [1])], defaultCF := [], liveFiles := none,
    getFails := false, putFails := false, deleteFails := false, flushOk := true }

/-- An environment in which no credential yields a TLS acceptor. -/
def envNoAcceptor : HttpEnv :=
  { buildAcceptor := fun _ _ => none, bindOk := true }

/-- A concrete running lifecycle state. -/
def exLifecycle : HttpServerLifecycle :=
  { gs := { enforce_secure_tls := true },
    actix := { cred := { certificate := "old-cert", private_key := "old-key" },
               running := true } }

/-- A concrete replacement credential. -/
def exNewCred : TLSPayload :=
  { certificate := "new-cert", private_key := "new-key" }

section Lemmas

theorem leBytes_length (k n : Nat) : (leBytes k n).length = k := by
  induction k generalizing n with
  | zero => rfl
  | succ k ih => simp [leBytes, ih]

theorem leNum_leBytes (k n : Nat) : leNum (leBytes k n) = n % 256 ^ k := by
  induction k generalizing n with
  | zero => simp [leBytes, leNum, Nat.mod_one]
  | succ k ih =>
      have hmul : (256 : Nat) ^ (k + 1) = 256 * 256 ^ k := by ring
      rw [leBytes, leNum, ih, hmul, Nat.mod_mul]

/-- The shrink loop projected to its result agrees, for every fuel, running
size and state, with the spec-side description: collect the pop-reported byte
counts, fail on a pop error, otherwise flush and fold the counts off the
starting size. -/
theorem shrinkGoC_eq_popTrace (fuel : Nat) :
    ∀ (sz min : Nat) (db : RocksDB),
      (shrinkGoC fuel sz min db).map Prod.fst =
        (popTrace fuel sz min db).map
          (fun t =>
            if t.2.1 then .error ()
            else if t.2.2.flushOk then .ok (t.1.foldl u64sub sz, t.2.2)
            else .error ()) := by
  induction fuel with
  | zero => intro sz min db; rfl
  | succ fuel ih =>
      intro sz min db
      by_cases hlt : min < sz
      · rw [shrinkGoC, popTrace, if_pos hlt, if_pos hlt]
        cases hp : pop db with
        | error e => rfl
        | ok r =>
            obtain ⟨removed?, db2⟩ := r
            cases removed? with
            | none => simp [flushFinish]
            | some removed =>
                simp only [Option.map_map]
                have := ih (u64sub sz removed) min db2
                rw [show (Prod.fst ∘ fun rc : Except Unit (Nat × RocksDB) × Nat =>
                    (rc.1, rc.2 + 1)) = Prod.fst from rfl] at *
                rw [this]
                cases popTrace fuel (u64sub sz removed) min db2 with
                | none => rfl
                | some t => rfl
      · rw [shrinkGoC, popTrace, if_neg hlt, if_neg hlt]
        simp [flushFinish]

end Lemmas

/-- C8: for every valid entry e — put time below 2 ^ 128 (u128), a 16-byte
checksum, payload shorter than 2 ^ 64 (the u64 length prefix) — decoding the
encoding of e yields e field-for-field: put_time, the 16 checksum bytes and
the payload bytes round-trip exactly through the v1 on-disk bincode layout. -/
theorem c8_entry_roundtrip (e : RImageEntry)
    (hpt : e.put_time < 2 ^ 128) (hck : e.checksum.length = 16)
    (hlen : e.bytes.length < 2 ^ 64) :
    deserEntry (serEntry e) = some e := by
  obtain ⟨pt, ck, bs⟩ := e
  simp only [RImageEntry.mk.injEq] at *
  have hpt' : pt < 256 ^ 16 := by
    have : (256 : Nat) ^ 16 = 2 ^ 128 := by norm_num
    omega
  have hlen' : bs.length < 256 ^ 8 := by
    have : (256 : Nat) ^ 8 = 2 ^ 64 := by norm_num
    omega
  have hser : serEntry ⟨pt, ck, bs⟩ =
      leBytes 16 pt ++ (ck ++ (leBytes 8 bs.length ++ bs)) := by
    simp [serEntry, List.append_assoc]
  have hL1 : (leBytes 16 pt).length = 16 := leBytes_length _ _
  have hL2 : (leBytes 8 bs.length).length = 8 := leBytes_length _ _
  rw [hser]
  simp only [deserEntry]
  rw [List.take_left' hL1, List.drop_left' hL1, List.take_left' hck,
    List.drop_left' hck, List.take_left' hL2, List.drop_left' hL2]
  simp [hL1, hL2, hck, leNum_leBytes, Nat.mod_eq_of_lt hpt', Nat.mod_eq_of_lt hlen']
  omega

/-- C8 witness: the round trip evaluated at a concrete valid entry. -/
theorem c8_entry_roundtrip_witness :
    (5 : Nat) < 2 ^ 128 ∧ (List.replicate 16 0).length = 16 ∧
      ([9, 9, 9] : Bytes).length < 2 ^ 64 ∧
      deserEntry (serEntry ⟨5, List.replicate 16 0, [9, 9, 9]⟩) =
        some ⟨5, List.replicate 16 0, [9, 9, 9]⟩ :=
  ⟨by decide, by decide, by decide,
    c8_entry_roundtrip ⟨5, List.replicate 16 0, [9, 9, 9]⟩ (by decide) (by decide)
      (by decide)⟩

/-- C1: evaluation of pop at a state whose images CF holds one entry under
key [5] and whose default CF holds an unrelated value under the same key.
pop reports 40 bytes removed and deletes the key from the DEFAULT column
family (its entry is gone), while the images-CF entry it iterated is still
present afterwards — the claim says the entry is deleted from the image
keyspace, but db.delete targets the default CF, and the reported count is
the stored value length, not the payload byte count. -/
theorem c1_pop_deletes_from_default_cf :
    pop exPopDB = .ok (some 40, { exPopDB with defaultCF := [] }) ∧
      ({ exPopDB with defaultCF := [] } : RocksDB).imagesCF =
        [([5], List.replicate 40 7)] :=
  ⟨rfl, rfl⟩

/-- C2: shrink is exactly the operation the spec describes — one initial
size measurement via report, a loop popping while the running size exceeds
min and subtracting the bytes each pop reports, a successful stop when a pop
returns empty, an abort returning failure when a pop errors, a forced
durability flush after the loop, and a returned value that is the initial
measurement with the reported byte counts folded off, never re-measured. -/
theorem c2_shrink_refines_spec (fuel : Nat) (db : RocksDB) (min : Nat) :
    shrink fuel db min = shrinkSpec fuel db min :=
  shrinkGoC_eq_popTrace fuel (report db) min db

/-- C3: evaluation of shrink(0) at a one-entry cache whose reported size is
120 and whose single stored value is 40 bytes long: the run terminates only
after 3 calls to pop (the second component of shrinkGoC), exceeding the
claimed bound of N = 1, and the images CF is unchanged afterwards — because
pop deletes from the default CF, each iteration sees the same first entry. -/
theorem c3_shrink_exceeds_entry_count :
    exShrinkDB.imagesCF.length = 1 ∧
      shrinkGoC 10 (report exShrinkDB) 0 exShrinkDB =
        some (.ok (0, exShrinkDB), 3) :=
  ⟨rfl, rfl⟩

/-- C4: evaluation of save-then-load at a fresh key.  Saving payload [9, 9]
at time 1000 and loading it back returns some ([9, 9], 1000): the payload
round-trips and the stored entry decodes to put_time 1000, checksum
digest0 [9, 9] and payload [9, 9] — but the value load returns is a bare
(payload, timestamp) pair: the rocks backend neither receives nor stores a
mime type and its load drops the checksum, so no entry with mime image/png
and a checksum field is ever returned. -/
theorem c4_save_load_payload_only :
    save_to_db digest0 1000 emptyDB [99] [49] false [9, 9] = .ok exSaveDB ∧
      cacheLoad digest0 exSaveDB [99] [49] false = some ([9, 9], 1000) ∧
      (getCF exSaveDB.imagesCF (get_cache_key digest0 [99] [49] false)).bind
          deserEntry =
        some ⟨1000, digest0 [9, 9], [9, 9]⟩ :=
  ⟨rfl, rfl, rfl⟩

/-- C5: for every digest, state and key, load returns none whenever the
engine get fails, or the key is absent, or the stored bytes do not decode —
the Option return type carries no error, so storage and serialization
failures are never propagated and all three situations yield the same
none. -/
theorem c5_load_absorbs_failures (digest : DigestFn) (db : RocksDB)
    (chap image : Bytes) (saver : Bool)
    (h : db.getFails = true ∨
      getCF db.imagesCF (get_cache_key digest chap image saver) = none ∨
      ∃ bs, getCF db.imagesCF (get_cache_key digest chap image saver) = some bs ∧
        deserEntry bs = none) :
    cacheLoad digest db chap image saver = none := by
  rcases h with h | h | ⟨bs, h1, h2⟩
  · simp [cacheLoad, load_from_db, h]
  · cases hg : db.getFails <;> simp [cacheLoad, load_from_db, hg, h]
  · cases hg : db.getFails <;> simp [cacheLoad, load_from_db, hg, h1, h2]

/-- C5 witness: a state holding undecodable bytes under the looked-up key
loads as none, indistinguishable from a never-cached key. -/
theorem c5_load_absorbs_failures_witness :
    (∃ bs, getCF exCorruptDB.imagesCF (get_cache_key digest0 [1] [2] false) = some bs ∧
        deserEntry bs = none) ∧
      cacheLoad digest0 exCorruptDB [1] [2] false = none :=
  ⟨⟨[], rfl, rfl⟩,
    c5_load_absorbs_failures digest0 exCorruptDB [1] [2] false
      (Or.inr (Or.inr ⟨[], rfl, rfl⟩))⟩

/-- C6: when the acceptor cannot be built from the new credential, rotation
first completes the forceful stop of the running listener (the only trace
event is the completed non-graceful stop), returns the acceptor
(credential) error, and leaves the lifecycle holding the stopped server —
running is false, so no listener is bound afterwards and nothing is
retried. -/
theorem c6_rotate_bad_credential (env : HttpEnv) (st : HttpServerLifecycle)
    (cert : TLSPayload)
    (h : env.buildAcceptor cert st.gs.enforce_secure_tls = none) :
    respawn_with_new_cert env st cert =
      ({ st with actix := { st.actix with running := false } },
        .error .acceptor, [.stopCompleted false]) := by
  simp [respawn_with_new_cert, lifecycleShutdown, serverStop, h]

/-- C6 witness: the theorem applied to a concrete running lifecycle and an
environment rejecting every credential. -/
theorem c6_rotate_bad_credential_witness :
    envNoAcceptor.buildAcceptor exNewCred exLifecycle.gs.enforce_secure_tls = none ∧
      respawn_with_new_cert envNoAcceptor exLifecycle exNewCred =
        ({ exLifecycle with actix := { exLifecycle.actix with running := false } },
          .error .acceptor, [.stopCompleted false]) :=
  ⟨rfl, c6_rotate_bad_credential envNoAcceptor exLifecycle exNewCred rfl⟩

/-- C7: in every rotation the completed forceful stop of the old listener is
the first event of the trace and occurs nowhere later, so every subsequent
event — in particular any bind attempt of the new listener — happens
strictly after the shutdown has fully completed; the trace is a single
sequential order, mirroring the straight-line awaits of the source, with no
concurrent overlap of stop and rebind. -/
theorem c7_stop_completes_before_bind (env : HttpEnv)
    (st : HttpServerLifecycle) (cert : TLSPayload) :
    ∃ rest, (respawn_with_new_cert env st cert).2.2 =
        LEvent.stopCompleted false :: rest ∧
      LEvent.stopCompleted false ∉ rest ∧ LEvent.stopCompleted true ∉ rest := by
  unfold respawn_with_new_cert lifecycleShutdown spawn_http_server
  cases env.buildAcceptor cert st.gs.enforce_secure_tls with
  | none => exact ⟨[], rfl, by simp, by simp⟩
  | some acc =>
      by_cases hb : env.bindOk
      · exact ⟨[.acceptorBuilt, .bindAttempted, .serverStarted], by simp [hb], by simp, by simp⟩
      · exact ⟨[.acceptorBuilt, .bindAttempted], by simp [hb], by simp, by simp⟩

/-- C10: when the live-file query fails, report returns 0 — the same value
an empty live-file list yields, so the two are indistinguishable — and
shrink then enters its loop with size 0, calls pop zero times, leaves the
state untouched and goes straight to the flush epilogue. -/
theorem c10_report_error_as_zero (db : RocksDB) (min fuel : Nat)
    (h : db.liveFiles = none) :
    report db = 0 ∧
      report { db with liveFiles := some [] } = 0 ∧
      shrinkGoC (fuel + 1) (report db) min db = some (flushFinish 0 db, 0) := by
  have hr : report db = 0 := by simp [report, size_on_disk, h]
  refine ⟨hr, by simp [report, size_on_disk], ?_⟩
  rw [hr, shrinkGoC, if_neg (Nat.not_lt_zero min)]

/-- C10 witness: the theorem applied to a one-entry state whose live-file
query fails. -/
theorem c10_report_error_as_zero_witness :
    exBadSizeDB.liveFiles = none ∧
      report exBadSizeDB = 0 ∧
      report { exBadSizeDB with liveFiles := some [] } = 0 ∧
      shrinkGoC 1 (report exBadSizeDB) 5 exBadSizeDB =
        some (flushFinish 0 exBadSizeDB, 0) :=
  ⟨rfl,
    (c10_report_error_as_zero exBadSizeDB 5 0 rfl).1,
    (c10_report_error_as_zero exBadSizeDB 5 0 rfl).2.1,
    (c10_report_error_as_zero exBadSizeDB 5 0 rfl).2.2⟩

end Scalpel
